import Mathlib

/-!
Verification of the burn-pinn-tf repository (a physics-informed neural
network that maps a target frequency to five tuning-fork dimensions).

The floating-point (f32) tensor arithmetic of the source is shallowly
embedded over the real numbers: a tensor of shape [n, 5] becomes a
function of type Fin n → Fin 5 → ℝ, every tensor operation in the loss is
elementwise on n×1 columns, so the loss is embedded as a per-example
scalar computation followed by the final mean.  Literal constants are
taken exactly as written in the source.
-/

namespace TF

noncomputable section

/-! ### Constants (src/constants.rs, module physics) -/

/-- Young's modulus in Pa (constants.rs: YOUNGS_MODULUS = 193.0e9). -/
def YOUNGS_MODULUS : ℝ := 193.0e9

/-- Density in kg/m^3 (constants.rs: DENSITY = 8000.0). -/
def DENSITY : ℝ := 8000.0

/-- Vibration-mode coefficient (constants.rs: K_FACTOR = 3.5160). -/
def K_FACTOR : ℝ := 3.5160

/-- Weight of the prong-length/handle-length penalty
(constants.rs: the ratio-penalty weight constant, value 0.5). -/
def RATIO_PENALTY_WEIGHT : ℝ := 0.5

/-- Weight of the prong-diameter / prong-length range penalties
(constants.rs: PENALTY_WEIGHT_RANGE = 10.0). -/
def PENALTY_WEIGHT_RANGE : ℝ := 10.0

/-- Weight of the remaining range penalties
(constants.rs: PENALTY_WEIGHT_OTHER = 5.0). -/
def PENALTY_WEIGHT_OTHER : ℝ := 5.0

/-! ### Dimension schema (src/constants.rs, module model_dims) -/

/-- Number of predicted dimensions (constants.rs: NUM_DIMS = 5). -/
def NUM_DIMS : ℕ := 5

/-- Column index of the handle length. -/
def HANDLE_LENGTH_IDX : Fin 5 := 0

/-- Column index of the handle diameter. -/
def HANDLE_DIAMETER_IDX : Fin 5 := 1

/-- Column index of the prong length. -/
def PRONG_LENGTH_IDX : Fin 5 := 2

/-- Column index of the prong diameter. -/
def PRONG_DIAMETER_IDX : Fin 5 := 3

/-- Column index of the prong gap. -/
def PRONG_GAP_IDX : Fin 5 := 4

/-! ### The physics-informed loss (src/physics.rs, tuning_fork_loss) -/

/-- Rectified linear unit, burn's activation::relu applied to one scalar. -/
def relu (x : ℝ) : ℝ := max x 0

/-- Epsilon guard against division by zero (physics.rs line 53). -/
def epsilon : ℝ := 1e-8

/-- Predicted resonance frequency of one example
(physics.rs lines 47-60): area, moment of inertia, stiffness,
mass term, sqrt term, and the length division, line by line. -/
def predicted_freq (prong_length prong_diameter : ℝ) : ℝ :=
  let pi := Real.pi
  let area := prong_diameter ^ 2 * (pi / 4)
  let moment_of_inertia := prong_diameter ^ 4 * (pi / 64)
  let stiffness := moment_of_inertia * YOUNGS_MODULUS
  let density_mass := area * DENSITY
  let sqrt_term := Real.sqrt (stiffness / (density_mass + epsilon))
  let length_term := prong_length ^ 2
  sqrt_term * (K_FACTOR / (2 * pi)) / length_term

/-- Squared frequency error of one example (physics.rs line 62). -/
def frequency_loss (dims : Fin 5 → ℝ) (target : ℝ) : ℝ :=
  (predicted_freq (dims PRONG_LENGTH_IDX) (dims PRONG_DIAMETER_IDX) - target) ^ 2

/-- One-sided squared-hinge range penalty for one dimension
(physics.rs lines 71-85: relu((x - min).neg())^2 + relu(x - max)^2). -/
def rangePenalty (lo hi x : ℝ) : ℝ :=
  relu (-(x - lo)) ^ 2 + relu (x - hi) ^ 2

/-- Penalty for prongs longer than the handle
(physics.rs line 66: relu(prong_length - handle_length)^2). -/
def ratio_penalty (dims : Fin 5 → ℝ) : ℝ :=
  relu (dims PRONG_LENGTH_IDX - dims HANDLE_LENGTH_IDX) ^ 2

/-- Total loss of one example, before the batch mean
(physics.rs lines 88-96, the weighted aggregation).
The range bounds are the literals of physics.rs lines 71-85. -/
def example_loss (dims : Fin 5 → ℝ) (target : ℝ) : ℝ :=
  frequency_loss dims target
    + ratio_penalty dims * RATIO_PENALTY_WEIGHT
    + (rangePenalty 0.002 0.02 (dims PRONG_DIAMETER_IDX)
        + rangePenalty 0.01 0.2 (dims PRONG_LENGTH_IDX)) * PENALTY_WEIGHT_RANGE
    + (rangePenalty 0.03 0.15 (dims HANDLE_LENGTH_IDX)
        + rangePenalty 0.005 0.02 (dims HANDLE_DIAMETER_IDX)
        + rangePenalty 0.002 0.02 (dims PRONG_GAP_IDX)) * PENALTY_WEIGHT_OTHER

/-- The batched loss (physics.rs, tuning_fork_loss): every tensor
operation of the source acts elementwise on the n×1 column slices, so the
batch loss is the mean over the batch of the per-example total. -/
def tuning_fork_loss (n : ℕ) (predicted_dims : Fin n → Fin 5 → ℝ)
    (target_freqs : Fin n → ℝ) : ℝ :=
  (∑ i, example_loss (predicted_dims i) (target_freqs i)) / n

/-! ### Geometric bounds as data (the literals of physics.rs lines 71-85,
indexed by the model_dims schema: handle_length, handle_diameter,
prong_length, prong_diameter, prong_gap). -/

/-- Per-dimension (min, max) feasibility bounds. -/
def geometricBounds : Fin 5 → ℝ × ℝ :=
  ![(0.03, 0.15), (0.005, 0.02), (0.01, 0.2), (0.002, 0.02), (0.002, 0.02)]

/-! ### Reference loss, written from the specification's words (spec.md
section 4.1), to be compared with the source embedding above.
predicted frequency: (K / 2π) · sqrt(E·I / (ρ·A + ε)) / L² with
A = π·d²/4 and I = π·d⁴/64; each penalty a one-sided squared hinge;
per-example total = frequency_loss + ratio_weight·ratio_penalty
+ range_weight_primary·(prong diameter + prong length range penalties)
+ range_weight_secondary·(handle length + handle diameter + prong gap
range penalties); batch loss = arithmetic mean of per-example totals. -/

/-- Reference predicted frequency, following the spec formula verbatim. -/
def ref_predicted_freq (L d : ℝ) : ℝ :=
  (K_FACTOR / (2 * Real.pi))
    * Real.sqrt (YOUNGS_MODULUS * (Real.pi * d ^ 4 / 64)
        / (DENSITY * (Real.pi * d ^ 2 / 4) + epsilon))
    / L ^ 2

/-- Reference one-sided squared hinge: relu(min − x)² + relu(x − max)². -/
def ref_range_penalty (lo hi x : ℝ) : ℝ :=
  relu (lo - x) ^ 2 + relu (x - hi) ^ 2

/-- Reference per-example total, following the spec's weighted
aggregation verbatim (weights written on the left). -/
def ref_example_loss (dims : Fin 5 → ℝ) (target : ℝ) : ℝ :=
  (ref_predicted_freq (dims PRONG_LENGTH_IDX) (dims PRONG_DIAMETER_IDX) - target) ^ 2
    + RATIO_PENALTY_WEIGHT * relu (dims PRONG_LENGTH_IDX - dims HANDLE_LENGTH_IDX) ^ 2
    + PENALTY_WEIGHT_RANGE
        * (ref_range_penalty (geometricBounds PRONG_DIAMETER_IDX).1
            (geometricBounds PRONG_DIAMETER_IDX).2 (dims PRONG_DIAMETER_IDX)
          + ref_range_penalty (geometricBounds PRONG_LENGTH_IDX).1
              (geometricBounds PRONG_LENGTH_IDX).2 (dims PRONG_LENGTH_IDX))
    + PENALTY_WEIGHT_OTHER
        * (ref_range_penalty (geometricBounds HANDLE_LENGTH_IDX).1
            (geometricBounds HANDLE_LENGTH_IDX).2 (dims HANDLE_LENGTH_IDX)
          + ref_range_penalty (geometricBounds HANDLE_DIAMETER_IDX).1
              (geometricBounds HANDLE_DIAMETER_IDX).2 (dims HANDLE_DIAMETER_IDX)
          + ref_range_penalty (geometricBounds PRONG_GAP_IDX).1
              (geometricBounds PRONG_GAP_IDX).2 (dims PRONG_GAP_IDX))

/-- Reference batch loss: arithmetic mean of per-example totals. -/
def ref_batch_loss (n : ℕ) (predicted_dims : Fin n → Fin 5 → ℝ)
    (target_freqs : Fin n → ℝ) : ℝ :=
  (∑ i, ref_example_loss (predicted_dims i) (target_freqs i)) / n

end

/-! ### Dataset (src/train.rs, TuningForkDataset).  Frequencies are kept
in ℚ here: the dataset and run-configuration layer does no irrational
arithmetic, so the embedding stays executable. -/

/-- On-the-fly dataset of random target frequencies (train.rs lines 26-31). -/
structure TuningForkDataset where
  size : ℕ
  freq_range : ℚ × ℚ
  deriving DecidableEq, Repr

/-- Abstract model of rand's thread_rng together with the contract of
gen_range(a..=b): for a nonempty inclusive range the sampled value lies
within it.  The rand crate is an external collaborator; only this
contract is assumed. -/
structure Rng where
  sample : ℚ → ℚ → ℚ
  sample_mem : ∀ a b : ℚ, a ≤ b → a ≤ sample a b ∧ sample a b ≤ b

/-- Dataset::get (train.rs lines 37-42): ignores the index and returns
Some fresh draw from the configured inclusive range. -/
def datasetGet (ds : TuningForkDataset) (rng : Rng) (_index : ℕ) : Option ℚ :=
  some (rng.sample ds.freq_range.1 ds.freq_range.2)

/-- Dataset::len (train.rs lines 45-47). -/
def datasetLen (ds : TuningForkDataset) : ℕ := ds.size

/-- A frequency the dataset can produce: gen_range(lo..=hi) draws
uniformly from the closed interval. -/
def canProduce (ds : TuningForkDataset) (f : ℚ) : Prop :=
  ds.freq_range.1 ≤ f ∧ f ≤ ds.freq_range.2

instance (ds : TuningForkDataset) (f : ℚ) : Decidable (canProduce ds f) :=
  inferInstanceAs (Decidable (_ ∧ _))

/-! ### The training run (src/train.rs, fn run and TrainingConfig). -/

/-- Training configuration (train.rs lines 108-121); the Adam optimizer
config is an external collaborator and carries no data relevant here.
Defaults: learning_rate 1e-4, num_epochs 10000, batch_size 1024. -/
structure TrainingConfig where
  learning_rate : ℚ
  num_epochs : ℕ
  batch_size : ℕ
  deriving DecidableEq, Repr

/-- TrainingConfig::new with the #[config(default = ...)] values. -/
def TrainingConfig.new : TrainingConfig :=
  { learning_rate := 1e-4, num_epochs := 10000, batch_size := 1024 }

/-- One observable step of fn run (train.rs lines 131-183), in source
order.  configError is the step the specification demands for a zero
epoch count or batch size; it appears nowhere in the source. -/
inductive RunStep where
  | buildTrainDataloader (batchSize : ℕ) (dataset : TuningForkDataset)
  | buildValidDataloader (batchSize : ℕ) (dataset : TuningForkDataset)
  | buildLearner (numEpochs : ℕ)
  | fit
  | saveModel
  | configError
  deriving DecidableEq, Repr

/-- The steps fn run performs for a given configuration, in source order
(train.rs lines 134-183).  fn run itself fixes config = TrainingConfig.new;
the integration test's train_for_test runs the same sequence with an
arbitrary config.  No step inspects num_epochs or batch_size for zero. -/
def runSteps (config : TrainingConfig) : List RunStep :=
  [ RunStep.buildTrainDataloader config.batch_size
      { size := config.batch_size * 100, freq_range := (200, 1800) },
    RunStep.buildValidDataloader config.batch_size
      { size := config.batch_size * 20, freq_range := (1800, 2000) },
    RunStep.buildLearner config.num_epochs,
    RunStep.fit,
    RunStep.saveModel ]

/-- The training dataset instance configured by fn run (train.rs lines
141-148). -/
def trainDataset : TuningForkDataset :=
  { size := TrainingConfig.new.batch_size * 100, freq_range := (200, 1800) }

/-- The validation dataset instance configured by fn run (train.rs lines
152-159). -/
def validDataset : TuningForkDataset :=
  { size := TrainingConfig.new.batch_size * 20, freq_range := (1800, 2000) }

noncomputable section

/-! ### The model (src/model.rs, TuningForkPINN). -/

/-- A fully connected layer (burn nn::Linear, an external collaborator):
an affine map with arbitrary real parameters. -/
structure Linear (nIn nOut : ℕ) where
  weight : Fin nIn → Fin nOut → ℝ
  bias : Fin nOut → ℝ

/-- Forward pass of a linear layer. -/
def Linear.forward {nIn nOut : ℕ} (l : Linear nIn nOut)
    (x : Fin nIn → ℝ) : Fin nOut → ℝ :=
  fun j => (∑ i, x i * l.weight i j) + l.bias j

/-- burn's softplus(x, beta) = log(1 + exp(x·beta)) / beta. -/
def softplus (x beta : ℝ) : ℝ := Real.log (1 + Real.exp (x * beta)) / beta

/-- The MLP (model.rs lines 25-33): three hidden ReLU layers of width
128 and a 5-wide output layer. -/
structure TuningForkPINN where
  layer_1 : Linear 1 128
  layer_2 : Linear 128 128
  layer_3 : Linear 128 128
  output_layer : Linear 128 5

/-- Forward pass on one example (model.rs lines 56-67): linear → relu
three times, output layer, then softplus(·, 1.0) for positivity. -/
def TuningForkPINN.forwardOne (m : TuningForkPINN) (input : Fin 1 → ℝ) :
    Fin 5 → ℝ :=
  let x1 := fun j => relu (m.layer_1.forward input j)
  let x2 := fun j => relu (m.layer_2.forward x1 j)
  let x3 := fun j => relu (m.layer_3.forward x2 j)
  fun j => softplus (m.output_layer.forward x3 j) 1.0

/-- Batched forward pass: burn's Linear and activations act row-wise on
a [batch, k] tensor. -/
def TuningForkPINN.forward (m : TuningForkPINN) {n : ℕ}
    (input : Fin n → Fin 1 → ℝ) : Fin n → Fin 5 → ℝ :=
  fun b => m.forwardOne (input b)

/-! ### Concrete inputs used by the tests and by the witnesses below. -/

/-- The fully feasible example of tests/physics_test.rs:
all dimensions within bounds, prong shorter than handle. -/
def feasibleDims : Fin 5 → ℝ := ![0.10, 0.01, 0.08, 0.005, 0.01]

/-- A dimension vector whose prong diameter is exactly 0. -/
def zeroDiamDims : Fin 5 → ℝ := ![0.10, 0.01, 0.08, 0, 0.01]

end

/-- A concrete generator satisfying the gen_range contract: it always
returns the lower endpoint. -/
def loRng : Rng :=
  { sample := fun a _ => a
    sample_mem := fun a b hab => ⟨le_rfl, hab⟩ }

/-! ### Helper lemmas about the loss components. -/

lemma relu_nonneg (x : ℝ) : 0 ≤ relu x := le_max_right x 0

lemma relu_of_nonpos {x : ℝ} (h : x ≤ 0) : relu x = 0 := max_eq_right h

lemma relu_mono {x y : ℝ} (h : x ≤ y) : relu x ≤ relu y := max_le_max h le_rfl

lemma relu_eq_zero_iff {x : ℝ} : relu x = 0 ↔ x ≤ 0 := max_eq_right_iff

lemma rangePenalty_nonneg (lo hi x : ℝ) : 0 ≤ rangePenalty lo hi x :=
  add_nonneg (sq_nonneg _) (sq_nonneg _)

lemma ratio_penalty_nonneg (d : Fin 5 → ℝ) : 0 ≤ ratio_penalty d := sq_nonneg _

lemma frequency_loss_nonneg (d : Fin 5 → ℝ) (t : ℝ) : 0 ≤ frequency_loss d t :=
  sq_nonneg _

lemma example_loss_nonneg (d : Fin 5 → ℝ) (t : ℝ) : 0 ≤ example_loss d t := by
  unfold example_loss
  have h1 := frequency_loss_nonneg d t
  have h2 := ratio_penalty_nonneg d
  have h3 := rangePenalty_nonneg (0.002 : ℝ) 0.02 (d PRONG_DIAMETER_IDX)
  have h4 := rangePenalty_nonneg (0.01 : ℝ) 0.2 (d PRONG_LENGTH_IDX)
  have h5 := rangePenalty_nonneg (0.03 : ℝ) 0.15 (d HANDLE_LENGTH_IDX)
  have h6 := rangePenalty_nonneg (0.005 : ℝ) 0.02 (d HANDLE_DIAMETER_IDX)
  have h7 := rangePenalty_nonneg (0.002 : ℝ) 0.02 (d PRONG_GAP_IDX)
  simp only [RATIO_PENALTY_WEIGHT, PENALTY_WEIGHT_RANGE, PENALTY_WEIGHT_OTHER]
  nlinarith

lemma rangePenalty_eq_zero_iff {lo hi x : ℝ} :
    rangePenalty lo hi x = 0 ↔ lo ≤ x ∧ x ≤ hi := by
  unfold rangePenalty
  rw [add_eq_zero_iff_of_nonneg (sq_nonneg _) (sq_nonneg _)]
  simp [pow_eq_zero_iff, relu_eq_zero_iff, neg_nonpos, sub_nonneg, sub_nonpos]

lemma ratio_penalty_eq_zero_iff {d : Fin 5 → ℝ} :
    ratio_penalty d = 0 ↔ d PRONG_LENGTH_IDX ≤ d HANDLE_LENGTH_IDX := by
  unfold ratio_penalty
  simp [pow_eq_zero_iff, relu_eq_zero_iff, sub_nonpos]

lemma frequency_loss_eq_zero_iff {d : Fin 5 → ℝ} {t : ℝ} :
    frequency_loss d t = 0 ↔
      predicted_freq (d PRONG_LENGTH_IDX) (d PRONG_DIAMETER_IDX) = t := by
  unfold frequency_loss
  rw [pow_eq_zero_iff two_ne_zero, sub_eq_zero]

lemma geometricBounds_handle_length :
    geometricBounds HANDLE_LENGTH_IDX = (0.03, 0.15) := rfl

lemma geometricBounds_handle_diameter :
    geometricBounds HANDLE_DIAMETER_IDX = (0.005, 0.02) := rfl

lemma geometricBounds_prong_length :
    geometricBounds PRONG_LENGTH_IDX = (0.01, 0.2) := rfl

lemma geometricBounds_prong_diameter :
    geometricBounds PRONG_DIAMETER_IDX = (0.002, 0.02) := rfl

lemma geometricBounds_prong_gap :
    geometricBounds PRONG_GAP_IDX = (0.002, 0.02) := rfl

lemma example_loss_eq_zero_iff (d : Fin 5 → ℝ) (t : ℝ) :
    example_loss d t = 0 ↔
      frequency_loss d t = 0 ∧ ratio_penalty d = 0
        ∧ rangePenalty 0.002 0.02 (d PRONG_DIAMETER_IDX) = 0
        ∧ rangePenalty 0.01 0.2 (d PRONG_LENGTH_IDX) = 0
        ∧ rangePenalty 0.03 0.15 (d HANDLE_LENGTH_IDX) = 0
        ∧ rangePenalty 0.005 0.02 (d HANDLE_DIAMETER_IDX) = 0
        ∧ rangePenalty 0.002 0.02 (d PRONG_GAP_IDX) = 0 := by
  have h1 := frequency_loss_nonneg d t
  have h2 := ratio_penalty_nonneg d
  have h3 := rangePenalty_nonneg (0.002 : ℝ) 0.02 (d PRONG_DIAMETER_IDX)
  have h4 := rangePenalty_nonneg (0.01 : ℝ) 0.2 (d PRONG_LENGTH_IDX)
  have h5 := rangePenalty_nonneg (0.03 : ℝ) 0.15 (d HANDLE_LENGTH_IDX)
  have h6 := rangePenalty_nonneg (0.005 : ℝ) 0.02 (d HANDLE_DIAMETER_IDX)
  have h7 := rangePenalty_nonneg (0.002 : ℝ) 0.02 (d PRONG_GAP_IDX)
  constructor
  · intro h
    simp only [example_loss, RATIO_PENALTY_WEIGHT, PENALTY_WEIGHT_RANGE,
      PENALTY_WEIGHT_OTHER] at h
    refine ⟨by linarith, by linarith, by linarith, by linarith, by linarith,
      by linarith, by linarith⟩
  · rintro ⟨g1, g2, g3, g4, g5, g6, g7⟩
    simp only [example_loss, g1, g2, g3, g4, g5, g6, g7]
    ring

lemma forall_range_iff (d : Fin 5 → ℝ) :
    (∀ j, rangePenalty (geometricBounds j).1 (geometricBounds j).2 (d j) = 0) ↔
      rangePenalty 0.002 0.02 (d PRONG_DIAMETER_IDX) = 0
        ∧ rangePenalty 0.01 0.2 (d PRONG_LENGTH_IDX) = 0
        ∧ rangePenalty 0.03 0.15 (d HANDLE_LENGTH_IDX) = 0
        ∧ rangePenalty 0.005 0.02 (d HANDLE_DIAMETER_IDX) = 0
        ∧ rangePenalty 0.002 0.02 (d PRONG_GAP_IDX) = 0 := by
  constructor
  · intro h
    exact ⟨h PRONG_DIAMETER_IDX, h PRONG_LENGTH_IDX, h HANDLE_LENGTH_IDX,
      h HANDLE_DIAMETER_IDX, h PRONG_GAP_IDX⟩
  · rintro ⟨g3, g2, g0, g1, g4⟩ j
    fin_cases j
    · exact g0
    · exact g1
    · exact g2
    · exact g3
    · exact g4

lemma predicted_freq_eq_ref (L d : ℝ) : predicted_freq L d = ref_predicted_freq L d := by
  simp only [predicted_freq, ref_predicted_freq]
  rw [show d ^ 4 * (Real.pi / 64) * YOUNGS_MODULUS
        / (d ^ 2 * (Real.pi / 4) * DENSITY + epsilon)
      = YOUNGS_MODULUS * (Real.pi * d ^ 4 / 64)
        / (DENSITY * (Real.pi * d ^ 2 / 4) + epsilon) by
    congr 1 <;> ring]
  ring

lemma rangePenalty_eq_ref (lo hi x : ℝ) : rangePenalty lo hi x = ref_range_penalty lo hi x := by
  unfold rangePenalty ref_range_penalty
  rw [neg_sub]

lemma example_loss_eq_ref (d : Fin 5 → ℝ) (t : ℝ) :
    example_loss d t = ref_example_loss d t := by
  simp only [example_loss, ref_example_loss, frequency_loss, ratio_penalty,
    predicted_freq_eq_ref, rangePenalty_eq_ref, geometricBounds_handle_length,
    geometricBounds_handle_diameter, geometricBounds_prong_length,
    geometricBounds_prong_diameter, geometricBounds_prong_gap]
  ring

lemma example_loss_of_feasible (d : Fin 5 → ℝ) (t : ℝ)
    (hb : ∀ j, (geometricBounds j).1 ≤ d j ∧ d j ≤ (geometricBounds j).2)
    (hr : d PRONG_LENGTH_IDX ≤ d HANDLE_LENGTH_IDX) :
    example_loss d t = frequency_loss d t := by
  have g2 : ratio_penalty d = 0 := ratio_penalty_eq_zero_iff.mpr hr
  have g3 : rangePenalty 0.002 0.02 (d PRONG_DIAMETER_IDX) = 0 :=
    rangePenalty_eq_zero_iff.mpr (hb PRONG_DIAMETER_IDX)
  have g4 : rangePenalty 0.01 0.2 (d PRONG_LENGTH_IDX) = 0 :=
    rangePenalty_eq_zero_iff.mpr (hb PRONG_LENGTH_IDX)
  have g5 : rangePenalty 0.03 0.15 (d HANDLE_LENGTH_IDX) = 0 :=
    rangePenalty_eq_zero_iff.mpr (hb HANDLE_LENGTH_IDX)
  have g6 : rangePenalty 0.005 0.02 (d HANDLE_DIAMETER_IDX) = 0 :=
    rangePenalty_eq_zero_iff.mpr (hb HANDLE_DIAMETER_IDX)
  have g7 : rangePenalty 0.002 0.02 (d PRONG_GAP_IDX) = 0 :=
    rangePenalty_eq_zero_iff.mpr (hb PRONG_GAP_IDX)
  simp only [example_loss, g2, g3, g4, g5, g6, g7]
  ring

lemma predicted_freq_zero_diam (L : ℝ) : predicted_freq L 0 = 0 := by
  simp [predicted_freq, epsilon]

/-! ### Claim theorems. -/

/-- C1: for every batch of n ≥ 1 predicted dimension vectors and n target
frequencies, tuning_fork_loss returns exactly the reference value written
from the specification: the arithmetic mean over examples of
frequency_loss + ratio_weight·ratio_penalty
+ primary_weight·(prong diameter + prong length range penalties)
+ secondary_weight·(handle length + handle diameter + prong gap range
penalties), with the spec's closed-form predicted frequency and one-sided
squared-hinge penalties. -/
theorem c1_loss_matches_reference (n : ℕ) (hn : 1 ≤ n)
    (predicted_dims : Fin n → Fin 5 → ℝ) (target_freqs : Fin n → ℝ) :
    tuning_fork_loss n predicted_dims target_freqs =
      ref_batch_loss n predicted_dims target_freqs := by
  unfold tuning_fork_loss ref_batch_loss
  congr 1
  exact Finset.sum_congr rfl fun i _ => example_loss_eq_ref _ _

/-- Witness for C1 at the batch of tests/physics_test.rs. -/
theorem c1_witness :
    1 ≤ 1 ∧
      tuning_fork_loss 1 (fun _ => feasibleDims) (fun _ => 440) =
        ref_batch_loss 1 (fun _ => feasibleDims) (fun _ => 440) :=
  ⟨le_rfl, c1_loss_matches_reference 1 le_rfl _ _⟩

/-- C2: whenever every predicted dimension of every example lies within
its geometric bounds and the prong is no longer than the handle, every
penalty term is exactly zero and the batch loss is the mean frequency
loss alone. -/
theorem c2_feasible_loss_is_frequency_loss (n : ℕ)
    (predicted_dims : Fin n → Fin 5 → ℝ) (target_freqs : Fin n → ℝ)
    (hb : ∀ i j, (geometricBounds j).1 ≤ predicted_dims i j
      ∧ predicted_dims i j ≤ (geometricBounds j).2)
    (hr : ∀ i, predicted_dims i PRONG_LENGTH_IDX ≤ predicted_dims i HANDLE_LENGTH_IDX) :
    tuning_fork_loss n predicted_dims target_freqs =
        (∑ i, frequency_loss (predicted_dims i) (target_freqs i)) / n
      ∧ ∀ i, ratio_penalty (predicted_dims i) = 0
        ∧ ∀ j, rangePenalty (geometricBounds j).1 (geometricBounds j).2
            (predicted_dims i j) = 0 := by
  constructor
  · unfold tuning_fork_loss
    congr 1
    exact Finset.sum_congr rfl fun i _ =>
      example_loss_of_feasible _ _ (hb i) (hr i)
  · intro i
    refine ⟨ratio_penalty_eq_zero_iff.mpr (hr i), fun j => ?_⟩
    exact rangePenalty_eq_zero_iff.mpr (hb i j)

/-- Witness for C2 at the feasible batch of tests/physics_test.rs. -/
theorem c2_witness :
    (∀ i : Fin 1, ∀ j, (geometricBounds j).1 ≤ (fun _ : Fin 1 => feasibleDims) i j
      ∧ (fun _ : Fin 1 => feasibleDims) i j ≤ (geometricBounds j).2) ∧
    (∀ i : Fin 1, (fun _ : Fin 1 => feasibleDims) i PRONG_LENGTH_IDX
      ≤ (fun _ : Fin 1 => feasibleDims) i HANDLE_LENGTH_IDX) ∧
    (tuning_fork_loss 1 (fun _ => feasibleDims) (fun _ : Fin 1 => (440 : ℝ)) =
        (∑ i : Fin 1, frequency_loss ((fun _ : Fin 1 => feasibleDims) i)
          ((fun _ : Fin 1 => (440 : ℝ)) i)) / ((1 : ℕ) : ℝ)
      ∧ ∀ i : Fin 1, ratio_penalty ((fun _ : Fin 1 => feasibleDims) i) = 0
        ∧ ∀ j, rangePenalty (geometricBounds j).1 (geometricBounds j).2
            ((fun _ : Fin 1 => feasibleDims) i j) = 0) := by
  have hb : ∀ i : Fin 1, ∀ j, (geometricBounds j).1 ≤ (fun _ : Fin 1 => feasibleDims) i j
      ∧ (fun _ : Fin 1 => feasibleDims) i j ≤ (geometricBounds j).2 := by
    intro i j
    fin_cases j <;> constructor <;> norm_num [feasibleDims, geometricBounds]
  have hr : ∀ i : Fin 1, (fun _ : Fin 1 => feasibleDims) i PRONG_LENGTH_IDX
      ≤ (fun _ : Fin 1 => feasibleDims) i HANDLE_LENGTH_IDX := by
    intro i
    show (0.08 : ℝ) ≤ 0.10
    norm_num
  exact ⟨hb, hr, c2_feasible_loss_is_frequency_loss 1 (fun _ => feasibleDims)
    (fun _ : Fin 1 => (440 : ℝ)) hb hr⟩

/-- C6: for every batch of size n ≥ 1, the loss is non-negative, and it
vanishes exactly when every example has a perfect frequency match and
every penalty term (ratio and all five range penalties) is zero. -/
theorem c6_nonneg_and_zero_iff (n : ℕ) (hn : 1 ≤ n)
    (predicted_dims : Fin n → Fin 5 → ℝ) (target_freqs : Fin n → ℝ) :
    0 ≤ tuning_fork_loss n predicted_dims target_freqs ∧
      (tuning_fork_loss n predicted_dims target_freqs = 0 ↔
        ∀ i, predicted_freq (predicted_dims i PRONG_LENGTH_IDX)
              (predicted_dims i PRONG_DIAMETER_IDX) = target_freqs i
          ∧ ratio_penalty (predicted_dims i) = 0
          ∧ ∀ j, rangePenalty (geometricBounds j).1 (geometricBounds j).2
              (predicted_dims i j) = 0) := by
  have hN : (0 : ℝ) < n := by
    have : 0 < n := lt_of_lt_of_le Nat.zero_lt_one hn
    exact_mod_cast this
  constructor
  · exact div_nonneg
      (Finset.sum_nonneg fun i _ => example_loss_nonneg _ _) hN.le
  · unfold tuning_fork_loss
    rw [div_eq_zero_iff]
    have hne : (n : ℝ) ≠ 0 := hN.ne'
    simp only [hne, or_false]
    rw [Finset.sum_eq_zero_iff_of_nonneg fun i _ => example_loss_nonneg _ _]
    constructor
    · intro h i
      have hi := (example_loss_eq_zero_iff _ _).mp (h i (Finset.mem_univ i))
      exact ⟨frequency_loss_eq_zero_iff.mp hi.1, hi.2.1,
        (forall_range_iff _).mpr ⟨hi.2.2.1, hi.2.2.2.1, hi.2.2.2.2.1,
          hi.2.2.2.2.2.1, hi.2.2.2.2.2.2⟩⟩
    · intro h i _
      obtain ⟨hf, hrp, hb⟩ := h i
      obtain ⟨g3, g4, g5, g6, g7⟩ := (forall_range_iff _).mp hb
      exact (example_loss_eq_zero_iff _ _).mpr
        ⟨frequency_loss_eq_zero_iff.mpr hf, hrp, g3, g4, g5, g6, g7⟩

/-- Witness for C6 at a concrete batch of size 1. -/
theorem c6_witness :
    1 ≤ 1 ∧
      (0 ≤ tuning_fork_loss 1 (fun _ => feasibleDims) (fun _ => 440) ∧
        (tuning_fork_loss 1 (fun _ => feasibleDims) (fun _ => 440) = 0 ↔
          ∀ i : Fin 1, predicted_freq ((fun _ : Fin 1 => feasibleDims) i PRONG_LENGTH_IDX)
                ((fun _ : Fin 1 => feasibleDims) i PRONG_DIAMETER_IDX) = 440
            ∧ ratio_penalty ((fun _ : Fin 1 => feasibleDims) i) = 0
            ∧ ∀ j, rangePenalty (geometricBounds j).1 (geometricBounds j).2
                ((fun _ : Fin 1 => feasibleDims) i j) = 0)) :=
  ⟨le_rfl, c6_nonneg_and_zero_iff 1 le_rfl _ _⟩

/-- C7: the loss is a deterministic, stateless function of its inputs:
equal predicted-dimension and target-frequency batches give the identical
scalar loss; the embedding takes no other state. -/
theorem c7_deterministic (n : ℕ) (d1 d2 : Fin n → Fin 5 → ℝ)
    (t1 t2 : Fin n → ℝ) (hd : d1 = d2) (ht : t1 = t2) :
    tuning_fork_loss n d1 t1 = tuning_fork_loss n d2 t2 := by
  rw [hd, ht]

/-- Witness for C7 at a concrete repeated call. -/
theorem c7_witness :
    (fun _ : Fin 1 => feasibleDims) = (fun _ : Fin 1 => feasibleDims) ∧
    (fun _ : Fin 1 => (440 : ℝ)) = (fun _ : Fin 1 => (440 : ℝ)) ∧
    tuning_fork_loss 1 (fun _ => feasibleDims) (fun _ => 440) =
      tuning_fork_loss 1 (fun _ => feasibleDims) (fun _ => 440) :=
  ⟨rfl, rfl, c7_deterministic 1 _ _ _ _ rfl rfl⟩

/-- C8: each penalty term is monotonically non-decreasing in the
violation magnitude: below the lower bound, moving further down never
decreases the range penalty; above the upper bound, moving further up
never decreases it; and once the prong exceeds the handle, lengthening
the prong never decreases the ratio penalty. -/
theorem c8_penalty_monotone :
    (∀ lo hi x y : ℝ, lo ≤ hi → y ≤ x → x ≤ lo →
      rangePenalty lo hi x ≤ rangePenalty lo hi y)
    ∧ (∀ lo hi x y : ℝ, lo ≤ hi → hi ≤ x → x ≤ y →
      rangePenalty lo hi x ≤ rangePenalty lo hi y)
    ∧ (∀ d e : Fin 5 → ℝ, d HANDLE_LENGTH_IDX = e HANDLE_LENGTH_IDX →
      e HANDLE_LENGTH_IDX ≤ d PRONG_LENGTH_IDX →
      d PRONG_LENGTH_IDX ≤ e PRONG_LENGTH_IDX →
      ratio_penalty d ≤ ratio_penalty e) := by
  refine ⟨?_, ?_, ?_⟩
  · intro lo hi x y hlh hyx hxlo
    unfold rangePenalty
    have h1 : relu (x - hi) = 0 := relu_of_nonpos (by linarith)
    have h2 : relu (y - hi) = 0 := relu_of_nonpos (by linarith)
    have h3 : relu (-(x - lo)) ≤ relu (-(y - lo)) := relu_mono (by linarith)
    rw [h1, h2]
    exact add_le_add (pow_le_pow_left₀ (relu_nonneg _) h3 2) le_rfl
  · intro lo hi x y hlh hhix hxy
    unfold rangePenalty
    have h1 : relu (-(x - lo)) = 0 := relu_of_nonpos (by linarith)
    have h2 : relu (-(y - lo)) = 0 := relu_of_nonpos (by linarith)
    have h3 : relu (x - hi) ≤ relu (y - hi) := relu_mono (by linarith)
    rw [h1, h2]
    exact add_le_add le_rfl (pow_le_pow_left₀ (relu_nonneg _) h3 2)
  · intro d e hde hvh hpl
    unfold ratio_penalty
    have h3 : relu (d PRONG_LENGTH_IDX - d HANDLE_LENGTH_IDX)
        ≤ relu (e PRONG_LENGTH_IDX - e HANDLE_LENGTH_IDX) :=
      relu_mono (by rw [← hde]; linarith)
    exact pow_le_pow_left₀ (relu_nonneg _) h3 2

/-- Witness for C8: a diameter further below its lower bound, a length
further above its upper bound, and a longer violating prong. -/
theorem c8_witness :
    rangePenalty 0.002 0.02 0.001 ≤ rangePenalty 0.002 0.02 0.0005
    ∧ rangePenalty 0.01 0.2 0.3 ≤ rangePenalty 0.01 0.2 0.4
    ∧ ratio_penalty ![0.05, 0.01, 0.08, 0.005, 0.01]
        ≤ ratio_penalty ![0.05, 0.01, 0.09, 0.005, 0.01] :=
  ⟨c8_penalty_monotone.1 0.002 0.02 0.001 0.0005
      (by norm_num) (by norm_num) (by norm_num),
    c8_penalty_monotone.2.1 0.01 0.2 0.3 0.4
      (by norm_num) (by norm_num) (by norm_num),
    c8_penalty_monotone.2.2 _ _ (by norm_num [HANDLE_LENGTH_IDX])
      (by show (0.05 : ℝ) ≤ 0.08; norm_num)
      (by show (0.08 : ℝ) ≤ 0.09; norm_num)⟩

/-- C9: every component of the model's forward pass on any input batch
is strictly positive, because the output layer is followed by
softplus. -/
theorem c9_forward_positive (m : TuningForkPINN) (n : ℕ)
    (input : Fin n → Fin 1 → ℝ) (b : Fin n) (j : Fin 5) :
    0 < m.forward input b j := by
  simp only [TuningForkPINN.forward, TuningForkPINN.forwardOne, softplus]
  have h := Real.exp_pos
    (m.output_layer.forward
      (fun k => relu (m.layer_3.forward
        (fun k2 => relu (m.layer_2.forward
          (fun k1 => relu (m.layer_1.forward (input b) k1)) k2)) k)) j)
  norm_num
  exact Real.log_pos (by linarith)

/-- C3 counterexample: with num_epochs = 0 and batch_size = 0 the run
performs its full step sequence — dataloaders, learner, fit, save — and
at no point reports a configuration error. -/
theorem c3_counterexample :
    runSteps { learning_rate := 1e-4, num_epochs := 0, batch_size := 0 } =
        [ RunStep.buildTrainDataloader 0 { size := 0, freq_range := (200, 1800) },
          RunStep.buildValidDataloader 0 { size := 0, freq_range := (1800, 2000) },
          RunStep.buildLearner 0, RunStep.fit, RunStep.saveModel ]
      ∧ RunStep.configError ∉
          runSteps { learning_rate := 1e-4, num_epochs := 0, batch_size := 0 } := by
  constructor
  · rfl
  · decide

/-- C3 (amended): fn run performs no configuration validation at all —
for every configuration, including zero epochs or zero batch size, the
step sequence contains no configuration error and starts straight with
dataloader construction, and with zero epochs the learner still runs and
the checkpoint is still written. -/
theorem c3_no_config_validation (config : TrainingConfig) :
    RunStep.configError ∉ runSteps config
      ∧ (runSteps config).head? = some (RunStep.buildTrainDataloader
          config.batch_size
          { size := config.batch_size * 100, freq_range := (200, 1800) })
      ∧ RunStep.saveModel ∈ runSteps config := by
  refine ⟨?_, rfl, ?_⟩
  · simp [runSteps]
  · simp [runSteps]

/-- C4 counterexample: at prong length 0.08 m and prong diameter exactly
0, the predicted frequency is exactly 0 — the smallest possible value,
strictly below the 440 Hz target of the tests — not a large value. -/
theorem c4_counterexample :
    predicted_freq 0.08 0 = 0 ∧ predicted_freq 0.08 0 < 440 := by
  have h := predicted_freq_zero_diam (0.08 : ℝ)
  exact ⟨h, by rw [h]; norm_num⟩

/-- C4 (amended): for every batch containing an example whose predicted
prong diameter is exactly 0 (with positive prong length), the epsilon
guard keeps the computation total — the mass denominator is strictly
positive and the sqrt radicand is non-negative, so no NaN or error
arises — but the predicted frequency of that example is exactly 0, and
the example is penalized via a frequency loss equal to the squared
target. -/
theorem c4_epsilon_guard_zero_diameter (n : ℕ)
    (predicted_dims : Fin n → Fin 5 → ℝ) (target_freqs : Fin n → ℝ)
    (i : Fin n) (hd : predicted_dims i PRONG_DIAMETER_IDX = 0)
    (hL : 0 < predicted_dims i PRONG_LENGTH_IDX) :
    0 < (predicted_dims i PRONG_DIAMETER_IDX) ^ 2 * (Real.pi / 4) * DENSITY + epsilon
      ∧ 0 ≤ (predicted_dims i PRONG_DIAMETER_IDX) ^ 4 * (Real.pi / 64) * YOUNGS_MODULUS
          / ((predicted_dims i PRONG_DIAMETER_IDX) ^ 2 * (Real.pi / 4) * DENSITY + epsilon)
      ∧ predicted_freq (predicted_dims i PRONG_LENGTH_IDX)
          (predicted_dims i PRONG_DIAMETER_IDX) = 0
      ∧ frequency_loss (predicted_dims i) (target_freqs i) = (target_freqs i) ^ 2 := by
  refine ⟨?_, ?_, ?_, ?_⟩
  · rw [hd]
    norm_num [epsilon]
  · rw [hd]
    norm_num
  · rw [hd]
    exact predicted_freq_zero_diam _
  · unfold frequency_loss
    rw [hd, predicted_freq_zero_diam]
    ring

/-- Witness for C4 at a concrete batch with a zero prong diameter. -/
theorem c4_witness :
    0 < ((fun _ : Fin 1 => zeroDiamDims) 0 PRONG_DIAMETER_IDX) ^ 2
          * (Real.pi / 4) * DENSITY + epsilon
      ∧ 0 ≤ ((fun _ : Fin 1 => zeroDiamDims) 0 PRONG_DIAMETER_IDX) ^ 4
          * (Real.pi / 64) * YOUNGS_MODULUS
          / (((fun _ : Fin 1 => zeroDiamDims) 0 PRONG_DIAMETER_IDX) ^ 2
              * (Real.pi / 4) * DENSITY + epsilon)
      ∧ predicted_freq ((fun _ : Fin 1 => zeroDiamDims) 0 PRONG_LENGTH_IDX)
          ((fun _ : Fin 1 => zeroDiamDims) 0 PRONG_DIAMETER_IDX) = 0
      ∧ frequency_loss ((fun _ : Fin 1 => zeroDiamDims) 0)
          ((fun _ : Fin 1 => (440 : ℝ)) 0) = ((fun _ : Fin 1 => (440 : ℝ)) 0) ^ 2 :=
  c4_epsilon_guard_zero_diameter 1 (fun _ => zeroDiamDims)
    (fun _ : Fin 1 => (440 : ℝ)) 0 rfl
    (by show (0 : ℝ) < 0.08; norm_num)

/-- C5 counterexample: the frequency 1800 Hz can be produced by both the
training dataset (range 200..=1800) and the validation dataset
(range 1800..=2000) configured by fn run, so the two ranges are not
disjoint. -/
theorem c5_counterexample :
    canProduce trainDataset 1800 ∧ canProduce validDataset 1800 := by
  exact ⟨⟨by norm_num [trainDataset], by norm_num [trainDataset]⟩,
    ⟨by norm_num [validDataset], by norm_num [validDataset]⟩⟩

/-- C5 (amended): the training and validation ranges overlap in exactly
one value — their shared boundary 1800 Hz; apart from that single
endpoint the two bands are disjoint. -/
theorem c5_overlap_only_at_boundary (f : ℚ)
    (h1 : canProduce trainDataset f) (h2 : canProduce validDataset f) :
    f = 1800 := by
  obtain ⟨_, hb⟩ := h1
  obtain ⟨hc, _⟩ := h2
  have hb2 : f ≤ 1800 := hb
  have hc2 : (1800 : ℚ) ≤ f := hc
  exact le_antisymm hb2 hc2

/-- Witness for C5 at the shared boundary frequency. -/
theorem c5_witness :
    canProduce trainDataset 1800 ∧ canProduce validDataset 1800
      ∧ (1800 : ℚ) = 1800 := by
  have h1 : canProduce trainDataset 1800 :=
    ⟨by norm_num [trainDataset], by norm_num [trainDataset]⟩
  have h2 : canProduce validDataset 1800 :=
    ⟨by norm_num [validDataset], by norm_num [validDataset]⟩
  exact ⟨h1, h2, c5_overlap_only_at_boundary 1800 h1 h2⟩

/-- C10: Dataset::get is total and index-blind: for every index — also
indices at or beyond the declared size — it returns Some value from the
configured inclusive range, never None, and the computation does not
depend on the index. -/
theorem c10_get_total_and_index_independent (ds : TuningForkDataset)
    (rng : Rng) (i j : ℕ) (h : ds.freq_range.1 ≤ ds.freq_range.2) :
    (∃ v, datasetGet ds rng i = some v ∧ canProduce ds v)
      ∧ datasetGet ds rng i ≠ none
      ∧ datasetGet ds rng i = datasetGet ds rng j := by
  obtain ⟨h1, h2⟩ := rng.sample_mem ds.freq_range.1 ds.freq_range.2 h
  exact ⟨⟨rng.sample ds.freq_range.1 ds.freq_range.2, rfl, h1, h2⟩,
    by simp [datasetGet], rfl⟩

/-- Witness for C10 at an index beyond the training dataset's declared
length. -/
theorem c10_witness :
    (∃ v, datasetGet trainDataset loRng (datasetLen trainDataset + 7) = some v
        ∧ canProduce trainDataset v)
      ∧ datasetGet trainDataset loRng (datasetLen trainDataset + 7) ≠ none
      ∧ datasetGet trainDataset loRng (datasetLen trainDataset + 7) =
          datasetGet trainDataset loRng 0 :=
  c10_get_total_and_index_independent trainDataset loRng
    (datasetLen trainDataset + 7) 0 (by norm_num [trainDataset])

end TF
